import Mathlib

/-!
Verification of the "Instant Site Analysis" single-file Streamlit app
(`src/app.py`) against its natural-language specification.

The embedding is shallow: each Python helper becomes a total Lean function
over explicit models of the external HTTP responses, the Streamlit session
state, and the rendered UI side effects.  Python floats are modelled as
rationals, JSON payloads as inductive response types, `st.session_state`
as a record of optional fields, and one Streamlit script rerun (triggered
by one button press) as the function `runScript`.  An uncaught Python
exception is modelled by a `crash` outcome.
-/

namespace SiteAnalysis

/-- One entry of the JSON array returned by the geocoding endpoint
(`https://geocode.maps.co/search?q=...`, `app.py` lines 25-31).  The code
reads `data['lat']` and `data['lon']` (keys the endpoint always supplies,
parsed with `float`; we model the parsed numeric value directly) and
`data.get('display_name')`, which is `None` when the key is absent. -/
structure GeoEntry where
  lat : ℚ
  lon : ℚ
  display_name : Option String
deriving DecidableEq

/-- Outcome of the HTTP GET against the geocoding endpoint as seen by
`geocode_address`: either `requests` raised a `RequestException`
(network error, timeout, or non-2xx after `raise_for_status`), carrying
its rendered message, or a JSON array of entries came back. -/
inductive GeoResponse where
  | requestError (e : String)
  | ok (entries : List GeoEntry)
deriving DecidableEq

/-- What `geocode_address` produces (`app.py` lines 23-34): the returned
triple `(lat, lon, display_name)` — each `None` on failure — together
with the `st.error` message it displayed, if any. -/
structure GeocodeOut where
  lat : Option ℚ
  lon : Option ℚ
  display_name : Option String
  errorShown : Option String
deriving DecidableEq

/-- `geocode_address` (`app.py` lines 23-34).  On a `RequestException` it
shows `st.error(f"Geocoding API failed: {e}")` and falls through to
`return None, None, None`.  On a 2xx response it returns data from the
first entry when the array is non-empty (`if response.json():`), and
falls through to `return None, None, None` — with no error message —
when the array is empty. -/
def geocode_address : GeoResponse → GeocodeOut
  | GeoResponse.requestError e =>
      ⟨none, none, none, some ("Geocoding API failed: " ++ e)⟩
  | GeoResponse.ok [] => ⟨none, none, none, none⟩
  | GeoResponse.ok (d :: _) => ⟨some d.lat, some d.lon, d.display_name, none⟩

/-- One GeoJSON feature of the USGS earthquake catalog response
(`app.py` lines 44-53).  The code reads `properties['place']`,
`properties['mag']`, `properties['time']` (epoch milliseconds) and
`geometry['coordinates']`, a `[lon, lat, depth]` array modelled as a
list so that the positional accesses `coords[1]` / `coords[0]` keep
their Python indexing (and can fail on short lists). -/
structure Feature where
  place : String
  mag : ℚ
  time : ℤ
  coordinates : List ℚ
deriving DecidableEq

/-- Outcome of the HTTP GET against the USGS endpoint as seen by
`get_nearby_earthquakes`: a raised `RequestException` with its message,
or a feature list. -/
inductive QuakeResponse where
  | requestError (e : String)
  | ok (features : List Feature)
deriving DecidableEq

/-- A pandas `Timestamp` is internally an epoch tick count; we represent
it by the epoch-millisecond value it was built from. -/
structure Timestamp where
  epoch_ms : ℤ
deriving DecidableEq

/-- `pd.to_datetime(t, unit='ms')` (`app.py` line 50): converts the
epoch-millisecond integer into a calendar timestamp.  The conversion is
a bijection on this range, represented by the underlying count. -/
def pd_to_datetime_ms (t : ℤ) : Timestamp := ⟨t⟩

/-- One row of the DataFrame built by `get_nearby_earthquakes`
(`app.py` lines 47-53). -/
structure QuakeRecord where
  place : String
  magnitude : ℚ
  time : Timestamp
  lat : ℚ
  lon : ℚ
deriving DecidableEq

/-- The per-feature dict built in the loop body (`app.py` lines 44-53):
`coords[1]` becomes `lat` and `coords[0]` becomes `lon`.  In Python an
out-of-range index raises an uncaught `IndexError` (it is not a
`requests.exceptions.RequestException`), modelled by `none`. -/
def featureToRecord (f : Feature) : Option QuakeRecord :=
  match f.coordinates[1]?, f.coordinates[0]? with
  | some la, some lo => some ⟨f.place, f.mag, pd_to_datetime_ms f.time, la, lo⟩
  | _, _ => none

/-- Result of `get_nearby_earthquakes`: the returned DataFrame rows plus
the `st.error` message shown (if any), or an uncaught exception. -/
inductive FetchOut where
  | ok (records : List QuakeRecord) (errorShown : Option String)
  | crash
deriving DecidableEq

/-- `get_nearby_earthquakes` (`app.py` lines 36-57).  On a
`RequestException` it shows `st.error(f"USGS Earthquake API failed: {e}")`
and returns an empty DataFrame; otherwise it maps every feature to a row
(crashing on a malformed feature). -/
def get_nearby_earthquakes : QuakeResponse → FetchOut
  | QuakeResponse.requestError e =>
      FetchOut.ok [] (some ("USGS Earthquake API failed: " ++ e))
  | QuakeResponse.ok fs =>
      match fs.mapM featureToRecord with
      | some recs => FetchOut.ok recs none
      | none => FetchOut.crash

/-- Python truthiness of an optional float, as used by `if lat and lon:`
(`app.py` line 92): `None` and `0.0` are falsy, all other floats truthy. -/
def truthyFloat : Option ℚ → Bool
  | none => false
  | some q => !(q == 0)

/-- Python `str` applied to an optional string, as an f-string renders
`{address_name}`: `None` prints as `"None"`. -/
def pyStrOfOptStr : Option String → String
  | none => "None"
  | some s => s

/-- `st.session_state`: each field is `none` while its key is absent.
`full_address` stores the Python value of `display_name`, itself possibly
`None`, hence the nested option. -/
structure SessionState where
  lat : Option ℚ
  lon : Option ℚ
  full_address : Option (Option String)
  df : Option (List QuakeRecord)
  summary : Option String
deriving DecidableEq

/-- The empty session a fresh user starts with. -/
def initialSession : SessionState := ⟨none, none, none, none, none⟩

/-- Outcome of `model.generate_content(prompt)` followed by
`response.text` (`app.py` lines 77-78), both inside the `try` block:
either a text, or any raised exception with its rendered message. -/
inductive GenResponse where
  | text (t : String)
  | raises (e : String)
deriving DecidableEq

/-- Observable behaviour of `generate_ai_summary`: the returned string,
and the prompt sent to the generative-language service (`none` when the
service was never invoked). -/
structure GenOut where
  result : String
  prompt_sent : Option String
deriving DecidableEq

/-- Python's `f"{x:.2f}"`: the value rounded to two decimal places
(half-way cases to the even neighbour, as Python rounds) and printed with
a sign, the integer part, and exactly two fractional digits.  Computed by
integer arithmetic on the exact value `100 * q`: `f` is its floor,
`r / den` its fractional part, and the comparison of `2 * r` with `den`
decides the rounding direction. -/
def format2f (q : ℚ) : String :=
  let num := 100 * q.num
  let den : ℤ := (q.den : ℤ)
  let f := num.fdiv den
  let r := num - f * den
  let n := if 2 * r < den then f
           else if den < 2 * r then f + 1
           else if f % 2 = 0 then f else f + 1
  (if n < 0 then "-" else "") ++ Nat.repr (n.natAbs / 100) ++ "." ++
    (if n.natAbs % 100 < 10 then "0" else "") ++ Nat.repr (n.natAbs % 100)

/-- The order of ℚ as a Boolean, by cross-multiplication with the
(positive) denominators. -/
def ratLeB (a b : ℚ) : Bool := decide (a.num * (b.den : ℤ) ≤ b.num * (a.den : ℤ))

/-- Binary maximum on ℚ via `ratLeB`. -/
def ratMax (a b : ℚ) : ℚ := if ratLeB a b then b else a

/-- `df['magnitude'].max()` for the non-empty DataFrame case
(`app.py` line 70): the maximum of the magnitude column. -/
def magMax : List QuakeRecord → ℚ
  | [] => 0
  | r :: rs => rs.foldl (fun m x => ratMax m x.magnitude) r.magnitude

/-- The prompt construction of `generate_ai_summary`
(`app.py` lines 66-74); the f-string interpolations become
concatenations. -/
def build_prompt (address_name : Option String) (df : List QuakeRecord) : String :=
  if df.isEmpty then
    "Write a brief, one-paragraph site analysis summary for the location: " ++
      pyStrOfOptStr address_name ++ ". State that " ++
      "no recent seismic activity was found" ++
      " in the immediate vicinity, which is a " ++
      "positive sign for geological stability" ++ "."
  else
    "Write a brief, one-paragraph site analysis summary for the location: " ++
      pyStrOfOptStr address_name ++ ". " ++
      "The analysis found " ++ Nat.repr df.length ++ " recent seismic events nearby" ++ ". " ++
      "The largest magnitude was " ++ format2f (magMax df) ++ "." ++ " " ++
      "Briefly explain what this might mean for a site risk assessment in a professional but easy-to-understand tone."

/-- `generate_ai_summary` (`app.py` lines 59-80).  Unconfigured service:
static message, no call.  Otherwise the prompt is built and sent; a raised
exception is caught and embedded into the returned text, so the function
always returns a displayable string. -/
def generate_ai_summary (apiKeyConfigured : Bool) (address_name : Option String)
    (df : List QuakeRecord) (svc : GenResponse) : GenOut :=
  if !apiKeyConfigured then
    ⟨"AI model is not configured. Please add your GOOGLE_API_KEY to the Streamlit secrets.", none⟩
  else
    let prompt := build_prompt address_name df
    match svc with
    | GenResponse.text t => ⟨t, some prompt⟩
    | GenResponse.raises e => ⟨"An error occurred with the AI model: " ++ e, some prompt⟩

/-- The single user gesture that triggers one script rerun: pressing
"Analyze Site" (bundling the responses of the two HTTP calls the handler
will make) or pressing "Generate AI Summary" (bundling the
generative-service outcome). -/
inductive UserAction where
  | analyzeSite (geo : GeoResponse) (quake : QuakeResponse)
  | generateSummary (svc : GenResponse)
deriving DecidableEq

/-- Effects of the "Analyze Site" handler (`app.py` lines 88-102). -/
structure AnalyzeResult where
  state : SessionState
  crashed : Bool
  geoErrorShown : Option String
  fetchCalled : Bool
  fetchErrorShown : Option String
  successShown : Bool
deriving DecidableEq

/-- The "Analyze Site" button handler (`app.py` lines 88-102): geocode,
then — only when `lat` and `lon` are both truthy — store `lat`, `lon`,
`full_address`, fetch earthquakes, store the DataFrame and show the
success banner; on a falsy coordinate nothing happens (`else: pass`).
A crash inside the fetch leaves the three already-assigned session keys
assigned and `df` untouched. -/
def analyzeHandler (s : SessionState) (geo : GeoResponse) (quake : QuakeResponse) :
    AnalyzeResult :=
  let g := geocode_address geo
  if truthyFloat g.lat && truthyFloat g.lon then
    let s1 : SessionState :=
      { s with lat := g.lat, lon := g.lon, full_address := some g.display_name }
    match get_nearby_earthquakes quake with
    | FetchOut.ok recs fetchErr =>
        ⟨{ s1 with df := some recs }, false, g.errorShown, true, fetchErr, true⟩
    | FetchOut.crash =>
        ⟨s1, true, g.errorShown, true, none, false⟩
  else
    ⟨s, false, g.errorShown, false, none, false⟩

/-- Effects of the report / AI-summary section (`app.py` lines 104-132). -/
structure RenderResult where
  state : SessionState
  crashed : Bool
  reportSectionShown : Bool
  eventsTableShown : Bool
  noActivityInfoShown : Bool
  aiWarningShown : Bool
  generateButtonShown : Bool
  genServiceCalled : Bool
deriving DecidableEq

/-- The `if 'df' in st.session_state:` section (`app.py` lines 104-132):
renders the table / info message and the map (reading
`st.session_state.lat` and `.lon`; a missing key raises, modelled as a
crash), then either the disabled-AI warning (credential absent) or the
"Generate AI Summary" button; when that button was the pressed action the
summary is generated and stored.  Outputs rendered before a crash are
irrelevant to every claim, so a crashing branch reports only the crash
and the untouched state. -/
def reportAndSummarySection (cfg : Bool) (s : SessionState) (act : UserAction) :
    RenderResult :=
  match s.df with
  | none => ⟨s, false, false, false, false, false, false, false⟩
  | some df =>
    match s.lat, s.lon with
    | some _, some _ =>
      let tableShown := !df.isEmpty
      let infoShown := df.isEmpty
      if cfg then
        match act with
        | UserAction.generateSummary svc =>
          match s.full_address with
          | some fa =>
            let out := generate_ai_summary cfg fa df svc
            ⟨{ s with summary := some out.result }, false, true, tableShown, infoShown,
              false, true, out.prompt_sent.isSome⟩
          | none => ⟨s, true, true, tableShown, infoShown, false, true, false⟩
        | _ => ⟨s, false, true, tableShown, infoShown, false, true, false⟩
      else
        ⟨s, false, true, tableShown, infoShown, true, false, false⟩
    | _, _ => ⟨s, true, true, false, false, false, false, false⟩

/-- Everything observable about one full script rerun. -/
structure RunOutcome where
  state : SessionState
  crashed : Bool
  geoErrorShown : Option String
  fetchCalled : Bool
  fetchErrorShown : Option String
  successShown : Bool
  reportSectionShown : Bool
  eventsTableShown : Bool
  noActivityInfoShown : Bool
  aiWarningShown : Bool
  generateButtonShown : Bool
  genServiceCalled : Bool
  summaryRendered : Option String
deriving DecidableEq

/-- One full Streamlit rerun of `app.py` (lines 82-135) triggered by one
button press: the "Analyze Site" handler, then the report / AI section,
then `if 'summary' in st.session_state: st.markdown(...)`.  A crash stops
the script, so nothing after the crash point renders, but session keys
already assigned stay assigned. -/
def runScript (cfg : Bool) (s0 : SessionState) (act : UserAction) : RunOutcome :=
  let a := match act with
    | UserAction.analyzeSite geo quake => analyzeHandler s0 geo quake
    | _ => ⟨s0, false, none, false, none, false⟩
  if a.crashed then
    ⟨a.state, true, a.geoErrorShown, a.fetchCalled, a.fetchErrorShown, a.successShown,
      false, false, false, false, false, false, none⟩
  else
    let r := reportAndSummarySection cfg a.state act
    if r.crashed then
      ⟨r.state, true, a.geoErrorShown, a.fetchCalled, a.fetchErrorShown, a.successShown,
        r.reportSectionShown, r.eventsTableShown, r.noActivityInfoShown,
        r.aiWarningShown, r.generateButtonShown, r.genServiceCalled, none⟩
    else
      ⟨r.state, false, a.geoErrorShown, a.fetchCalled, a.fetchErrorShown, a.successShown,
        r.reportSectionShown, r.eventsTableShown, r.noActivityInfoShown,
        r.aiWarningShown, r.generateButtonShown, r.genServiceCalled, r.state.summary⟩

/-! ### Decimal rendering of the DataFrame values

`df.to_csv` renders each float column entry with `repr`: sign, integer
part, a decimal point and the fractional digits (one `0` when the value
is integral).  Python floats are dyadic rationals, so every value has a
finite decimal expansion; `goodQ` states that side condition on our
rational model and `renderQ` prints that expansion. -/

/-- The decimal digit character for `n < 10` (and `'9'` beyond, never hit). -/
def digitChar : ℕ → Char
  | 0 => '0'
  | 1 => '1'
  | 2 => '2'
  | 3 => '3'
  | 4 => '4'
  | 5 => '5'
  | 6 => '6'
  | 7 => '7'
  | 8 => '8'
  | _ => '9'

/-- Numeric value of a decimal digit character. -/
def digitVal (c : Char) : ℕ := c.toNat - 48

/-- Whether `c` is one of `'0'`-`'9'`. -/
def isDigitChar (c : Char) : Bool := 48 ≤ c.toNat && c.toNat ≤ 57

/-- Decimal digits of a natural number, most significant first, with an
explicit fuel for structural recursion. -/
def natDigitsAux : ℕ → ℕ → List Char
  | 0, _ => []
  | fuel + 1, n =>
      if n < 10 then [digitChar n]
      else natDigitsAux fuel (n / 10) ++ [digitChar (n % 10)]

/-- Decimal digits of a natural number, most significant first. -/
def natDigits (n : ℕ) : List Char := natDigitsAux (n + 1) n

/-- Value of a big-endian list of decimal digit characters. -/
def digitsVal (ds : List Char) : ℕ := ds.foldl (fun a c => a * 10 + digitVal c) 0

/-- Multiplicity of the prime `p` in `n`, with explicit fuel. -/
def padicAux (p : ℕ) : ℕ → ℕ → ℕ
  | 0, _ => 0
  | fuel + 1, n =>
      if 2 ≤ p ∧ n % p = 0 ∧ 0 < n then padicAux p fuel (n / p) + 1 else 0

/-- Number of decimal digits needed after the point: with
`q.den = 2 ^ a * 5 ^ b` this is `max a b`. -/
def decExp (q : ℚ) : ℕ := max (padicAux 2 q.den q.den) (padicAux 5 q.den q.den)

/-- The denominator factors only into 2s and 5s, i.e. `q` has a finite
decimal expansion (true of every Python float). -/
def goodQ (q : ℚ) : Bool :=
  q.den == 2 ^ padicAux 2 q.den q.den * 5 ^ padicAux 5 q.den q.den

/-- The integer `q * 10 ^ decExp q`, computed by exact integer division
(the division is exact when `goodQ q` holds). -/
def scaledNum (q : ℚ) : ℤ := q.num * ((10 : ℤ) ^ decExp q / (q.den : ℤ))

/-- Digits of `|scaledNum q|`, zero-padded on the left so that at least
one digit sits before the decimal point. -/
def paddedDigits (q : ℚ) : List Char :=
  List.replicate (decExp q + 1 - (natDigits (scaledNum q).natAbs).length) '0' ++
    natDigits (scaledNum q).natAbs

/-- Decimal rendering of a finite-decimal rational, as `repr` of the
corresponding Python float: sign, integer digits, `'.'`, and the
fractional digits (`"0"` when the value is integral). -/
def renderQ (q : ℚ) : String :=
  (if scaledNum q < 0 then "-" else "") ++
    String.mk ((paddedDigits q).take ((paddedDigits q).length - decExp q)) ++ "." ++
    (if decExp q = 0 then "0"
     else String.mk ((paddedDigits q).drop ((paddedDigits q).length - decExp q)))

/-- Decimal rendering of an integer: sign and digits. -/
def renderInt (n : ℤ) : String :=
  (if n < 0 then "-" else "") ++ String.mk (natDigits n.natAbs)

/-- CSV rendering of the `time` column entry.  A pandas `Timestamp`
prints as the calendar form of its epoch count — an injective formatting
of the count our model stores — so the model renders the count itself. -/
def renderTimestamp (t : Timestamp) : String := renderInt t.epoch_ms

/-- Longest digit-character run at the front of `cs`, and the rest. -/
def spanDigits : List Char → List Char × List Char
  | [] => ([], [])
  | c :: cs =>
      if isDigitChar c then
        let p := spanDigits cs
        (c :: p.1, p.2)
      else ([], c :: cs)

/-- Split an optional leading minus sign off a character list. -/
def splitSign : List Char → Bool × List Char
  | [] => (false, [])
  | c :: cs => if c == '-' then (true, cs) else (false, c :: cs)

/-- Parse back a decimal rendering `[-]digits.digits` into a rational. -/
def parseQ (s : String) : Option ℚ :=
  let p0 := splitSign s.data
  let p := spanDigits p0.2
  match p.2 with
  | [] => none
  | d :: fs =>
    if d == '.' && !p.1.isEmpty && !fs.isEmpty && fs.all isDigitChar then
      let v : ℚ := (digitsVal p.1 : ℚ) + (digitsVal fs : ℚ) / (10 : ℚ) ^ fs.length
      some (bif p0.1 then -v else v)
    else none

/-- Parse back a decimal integer rendering `[-]digits`. -/
def parseIntStr (s : String) : Option ℤ :=
  let p0 := splitSign s.data
  if !p0.2.isEmpty && p0.2.all isDigitChar then
    some (bif p0.1 then -(digitsVal p0.2 : ℤ) else (digitsVal p0.2 : ℤ))
  else none

/-! ### CSV export and reparse

`st.session_state.df.to_csv(index=False)` (`app.py` line 115) writes a
header line and one line per record, comma-separated, quoting only the
fields that need it (the `csv.QUOTE_MINIMAL` behaviour pandas uses):
a field containing a comma, a double quote, or a line break is wrapped in
double quotes with embedded quotes doubled.  The parser below is a
standard CSV reader for exactly that format. -/

/-- Whether minimal quoting must wrap this field. -/
def needsQuote (s : String) : Bool :=
  s.data.any (fun c => c == ',' || c == '"' || c == '\n' || c == '\r')

/-- Double every double-quote character. -/
def escapeQuotes : List Char → List Char
  | [] => []
  | c :: cs => if c = '"' then '"' :: '"' :: escapeQuotes cs else c :: escapeQuotes cs

/-- One CSV field, quoted when needed. -/
def writeField (s : String) : String :=
  if needsQuote s then "\"" ++ String.mk (escapeQuotes s.data) ++ "\"" else s

/-- One CSV line: the fields joined by commas. -/
def writeRow : List String → String
  | [] => ""
  | [f] => writeField f
  | f :: fs => writeField f ++ "," ++ writeRow fs

/-- The lines of a CSV file, each terminated by a newline. -/
def csvLines : List (List String) → String
  | [] => ""
  | r :: rs => writeRow r ++ "\n" ++ csvLines rs

/-- The header row `to_csv` writes for this DataFrame. -/
def csvHeaderRow : List String := ["place", "magnitude", "time", "lat", "lon"]

/-- The five rendered fields of one record, in column order. -/
def recordFields (r : QuakeRecord) : List String :=
  [r.place, renderQ r.magnitude, renderTimestamp r.time, renderQ r.lat, renderQ r.lon]

/-- `df.to_csv(index=False)`: header line, then one line per record. -/
def to_csv (rs : List QuakeRecord) : String :=
  csvLines (csvHeaderRow :: rs.map recordFields)

/-- Body of a quoted CSV field, after its opening quote: consume up to
the closing quote, reading a doubled quote as one literal quote.
Returns the field content and the characters after the closing quote. -/
def parseQuotedBody : List Char → Option (List Char × List Char)
  | [] => none
  | c :: cs =>
      if c = '"' then
        match cs with
        | [] => some ([], [])
        | c2 :: cs2 =>
            if c2 = '"' then
              match parseQuotedBody cs2 with
              | some p => some ('"' :: p.1, p.2)
              | none => none
            else some ([], c2 :: cs2)
      else
        match parseQuotedBody cs with
        | some p => some (c :: p.1, p.2)
        | none => none

/-- An unquoted CSV field: everything up to a comma or newline. -/
def rawSpan : List Char → List Char × List Char
  | [] => ([], [])
  | c :: cs =>
      if c = ',' ∨ c = '\n' then ([], c :: cs)
      else
        let p := rawSpan cs
        (c :: p.1, p.2)

/-- One CSV field, quoted or raw. -/
def parseOneField : List Char → Option (List Char × List Char)
  | [] => some ([], [])
  | c :: cs => if c = '"' then parseQuotedBody cs else some (rawSpan (c :: cs))

/-- The fields of one CSV line, consuming its terminating newline
(or the end of input). -/
def parseFieldsAux : ℕ → List Char → Option (List String × List Char)
  | 0, _ => none
  | fuel + 1, cs =>
    match parseOneField cs with
    | none => none
    | some (f, rest) =>
      match rest with
      | [] => some ([String.mk f], [])
      | c :: cs2 =>
          if c = ',' then
            match parseFieldsAux fuel cs2 with
            | some p => some (String.mk f :: p.1, p.2)
            | none => none
          else if c = '\n' then some ([String.mk f], cs2)
          else none

/-- All lines of a CSV file. -/
def parseRowsAux : ℕ → List Char → Option (List (List String))
  | _, [] => some []
  | 0, _ => none
  | fuel + 1, cs =>
    match parseFieldsAux (cs.length + 1) cs with
    | none => none
    | some (fs, rest) =>
      match parseRowsAux fuel rest with
      | some rows => some (fs :: rows)
      | none => none

/-- Parse a CSV file into its rows of fields. -/
def csv_parse (s : String) : Option (List (List String)) :=
  parseRowsAux (s.data.length + 1) s.data

/-- Decode one parsed CSV body row back into a record. -/
def decodeRow : List String → Option QuakeRecord
  | [p, m, t, la, lo] =>
    match parseQ m, parseIntStr t, parseQ la, parseQ lo with
    | some mv, some tv, some lav, some lov => some ⟨p, mv, ⟨tv⟩, lav, lov⟩
    | _, _, _, _ => none
  | _ => none

/-- Reparse an exported CSV file: check the header row, then decode every
body row. -/
def parse_report (s : String) : Option (List QuakeRecord) :=
  match csv_parse s with
  | none => none
  | some [] => none
  | some (header :: body) =>
      if header = csvHeaderRow then body.mapM decodeRow else none

/-- All three float-valued fields of the record have finite decimal
expansions (every Python float does). -/
def goodRecord (r : QuakeRecord) : Bool :=
  goodQ r.magnitude && goodQ r.lat && goodQ r.lon

/-- `pat` occurs as a contiguous substring of `s`. -/
def containsSub (s pat : String) : Prop :=
  ∃ a b, s.data = a ++ (pat.data ++ b)

/-- The record C4 predicts for a feature: `properties` fields copied,
epoch time converted, and `geometry.coordinates` read as `[lon, lat]`,
i.e. index 1 becomes `lat` and index 0 becomes `lon`. -/
def expectedQuakeRecord (f : Feature) : QuakeRecord :=
  ⟨f.place, f.mag, pd_to_datetime_ms f.time, f.coordinates.getD 1 0, f.coordinates.getD 0 0⟩

/-! ### Lemmas: decimal digit strings -/

theorem digitVal_digitChar {n : ℕ} (h : n < 10) : digitVal (digitChar n) = n := by
  interval_cases n <;> rfl

theorem isDigitChar_digitChar {n : ℕ} (h : n < 10) : isDigitChar (digitChar n) = true := by
  interval_cases n <;> rfl

theorem digitsVal_append_singleton (ds : List Char) (c : Char) :
    digitsVal (ds ++ [c]) = digitsVal ds * 10 + digitVal c := by
  simp [digitsVal, List.foldl_append]

theorem digitsVal_natDigitsAux : ∀ fuel n, n < fuel → digitsVal (natDigitsAux fuel n) = n := by
  intro fuel
  induction fuel with
  | zero => intro n h; omega
  | succ fuel ih =>
    intro n h
    by_cases h10 : n < 10
    · simp [natDigitsAux, h10, digitsVal, digitVal_digitChar h10]
    · have hlt : n / 10 < fuel := by
        have := Nat.div_lt_self (show 0 < n by omega) (show 1 < 10 by omega)
        omega
      rw [natDigitsAux, if_neg h10, digitsVal_append_singleton, ih (n / 10) hlt,
        digitVal_digitChar (Nat.mod_lt n (by omega))]
      omega

theorem digitsVal_natDigits (n : ℕ) : digitsVal (natDigits n) = n :=
  digitsVal_natDigitsAux (n + 1) n (Nat.lt_succ_self n)

theorem mem_natDigitsAux_digit :
    ∀ fuel n c, c ∈ natDigitsAux fuel n → isDigitChar c = true := by
  intro fuel
  induction fuel with
  | zero => intro n c h; simp [natDigitsAux] at h
  | succ fuel ih =>
    intro n c h
    by_cases h10 : n < 10
    · rw [natDigitsAux, if_pos h10] at h
      simp at h
      subst h
      exact isDigitChar_digitChar h10
    · rw [natDigitsAux, if_neg h10] at h
      simp at h
      rcases h with h | h
      · exact ih _ _ h
      · subst h
        exact isDigitChar_digitChar (Nat.mod_lt _ (by omega))

theorem mem_natDigits_digit (n : ℕ) (c : Char) (h : c ∈ natDigits n) :
    isDigitChar c = true :=
  mem_natDigitsAux_digit (n + 1) n c h

theorem natDigits_ne_nil (n : ℕ) : natDigits n ≠ [] := by
  rw [natDigits, natDigitsAux]
  by_cases h10 : n < 10 <;> simp [h10]

theorem foldl_digits_acc :
    ∀ (ds : List Char) (acc : ℕ),
      List.foldl (fun a c => a * 10 + digitVal c) acc ds = acc * 10 ^ ds.length + digitsVal ds := by
  intro ds
  induction ds with
  | nil => intro acc; simp [digitsVal]
  | cons c ds ih =>
    intro acc
    have h2 : digitsVal (c :: ds) = digitVal c * 10 ^ ds.length + digitsVal ds := by
      have := ih (0 * 10 + digitVal c)
      simpa [digitsVal] using this
    calc List.foldl (fun a c => a * 10 + digitVal c) acc (c :: ds)
        = List.foldl (fun a c => a * 10 + digitVal c) (acc * 10 + digitVal c) ds := rfl
      _ = (acc * 10 + digitVal c) * 10 ^ ds.length + digitsVal ds := ih _
      _ = acc * 10 ^ (c :: ds).length + digitsVal (c :: ds) := by
          rw [h2, List.length_cons]
          ring

theorem digitsVal_append (a b : List Char) :
    digitsVal (a ++ b) = digitsVal a * 10 ^ b.length + digitsVal b := by
  rw [digitsVal, List.foldl_append]
  exact foldl_digits_acc b (digitsVal a)

theorem digitsVal_pad (k : ℕ) (ds : List Char) :
    digitsVal (List.replicate k '0' ++ ds) = digitsVal ds := by
  have h0 : digitsVal (List.replicate k '0') = 0 := by
    induction k with
    | zero => rfl
    | succ k ih => simpa [digitsVal, List.replicate_succ, digitVal] using ih
  rw [digitsVal_append, h0]
  simp

theorem isDigitChar_ne_hyphen {c : Char} (h : isDigitChar c = true) : (c == '-') = false := by
  rcases Bool.eq_false_or_eq_true (c == '-') with ht | hf
  · exfalso
    have : c = '-' := beq_iff_eq.mp ht
    subst this
    simp [isDigitChar] at h
  · exact hf

theorem isDigitChar_ne_dot {c : Char} (h : isDigitChar c = true) : c ≠ '.' := by
  intro hc
  subst hc
  simp [isDigitChar] at h

theorem spanDigits_append :
    ∀ (ds rest : List Char), (∀ c ∈ ds, isDigitChar c = true) →
      (∀ c cs, rest = c :: cs → isDigitChar c = false) →
      spanDigits (ds ++ rest) = (ds, rest) := by
  intro ds
  induction ds with
  | nil =>
    intro rest _ hrest
    cases rest with
    | nil => rfl
    | cons c cs => simp [spanDigits, hrest c cs rfl]
  | cons d ds ih =>
    intro rest hds hrest
    have hd : isDigitChar d = true := hds d (by simp)
    simp only [List.cons_append, spanDigits, hd, if_pos, List.append_eq]
    rw [ih rest (fun c hc => hds c (by simp [hc])) hrest]

/-! ### Lemmas: decimal rendering round trip -/

theorem goodQ_den_dvd (q : ℚ) (h : goodQ q = true) : q.den ∣ 10 ^ decExp q := by
  have heq : q.den = 2 ^ padicAux 2 q.den q.den * 5 ^ padicAux 5 q.den q.den := by
    simpa [goodQ] using h
  have h10 : (10 : ℕ) ^ decExp q = 2 ^ decExp q * 5 ^ decExp q := by
    rw [show (10 : ℕ) = 2 * 5 from rfl, mul_pow]
  rw [h10]
  nth_rewrite 1 [heq]
  exact mul_dvd_mul (pow_dvd_pow 2 (le_max_left _ _)) (pow_dvd_pow 5 (le_max_right _ _))

theorem scaledNum_spec (q : ℚ) (h : goodQ q = true) :
    (scaledNum q : ℚ) = q * (10 : ℚ) ^ decExp q := by
  obtain ⟨c, hc⟩ := goodQ_den_dvd q h
  have hden0 : (q.den : ℤ) ≠ 0 := Int.natCast_ne_zero.mpr (Rat.den_ne_zero q)
  have hcZ : (10 : ℤ) ^ decExp q = (q.den : ℤ) * (c : ℤ) := by exact_mod_cast hc
  have hdiv : (10 : ℤ) ^ decExp q / (q.den : ℤ) = (c : ℤ) := by
    rw [hcZ]
    exact Int.mul_ediv_cancel_left _ hden0
  have hq : (q.den : ℚ) ≠ 0 := by
    exact_mod_cast Rat.den_ne_zero q
  have hcQ : (10 : ℚ) ^ decExp q = (q.den : ℚ) * (c : ℚ) := by exact_mod_cast hcZ
  have h2 : q * (10 : ℚ) ^ decExp q = (q.num : ℚ) * (c : ℚ) := by
    rw [hcQ, ← mul_assoc, Rat.mul_den_eq_num]
  rw [scaledNum, hdiv, h2]
  push_cast
  ring

theorem q_eq_scaledNum_div (q : ℚ) (h : goodQ q = true) :
    q = (scaledNum q : ℚ) / (10 : ℚ) ^ decExp q := by
  have h10 : ((10 : ℚ) ^ decExp q) ≠ 0 := by positivity
  rw [scaledNum_spec q h]
  field_simp

theorem goodQ_decExp_zero (q : ℚ) (h : goodQ q = true) (he : decExp q = 0) : q.den = 1 := by
  have hd := goodQ_den_dvd q h
  rw [he, pow_zero] at hd
  exact Nat.dvd_one.mp hd

theorem parseQ_shape (s : String) (sign : Bool) (ip fp : List Char)
    (hs : s.data = (if sign then ['-'] else []) ++ (ip ++ '.' :: fp))
    (hip : ip ≠ []) (hfp : fp ≠ [])
    (hipd : ∀ c ∈ ip, isDigitChar c = true) (hfpd : ∀ c ∈ fp, isDigitChar c = true) :
    parseQ s =
      some (bif sign then -((digitsVal ip : ℚ) + (digitsVal fp : ℚ) / (10 : ℚ) ^ fp.length)
            else (digitsVal ip : ℚ) + (digitsVal fp : ℚ) / (10 : ℚ) ^ fp.length) := by
  have hspan := spanDigits_append ip ('.' :: fp) hipd (fun c cs hc => by cases hc; rfl)
  have hallfp : fp.all isDigitChar = true := List.all_eq_true.mpr hfpd
  have hipe : ip.isEmpty = false := by simp [List.isEmpty_iff, hip]
  have hfpe : fp.isEmpty = false := by simp [List.isEmpty_iff, hfp]
  have hsplit : splitSign s.data = (sign, ip ++ '.' :: fp) := by
    rw [hs]
    cases sign with
    | false =>
      cases ip with
      | nil => exact absurd rfl hip
      | cons i0 ip' =>
        have hne : (i0 == '-') = false := isDigitChar_ne_hyphen (hipd i0 (by simp))
        simp [splitSign, hne]
    | true => simp [splitSign]
  simp [parseQ, hsplit, hspan, hipe, hfpe, hallfp]

theorem digitsVal_zero_singleton : digitsVal ['0'] = 0 := rfl

theorem parseQ_renderQ (q : ℚ) (h : goodQ q = true) : parseQ (renderQ q) = some q := by
  set e := decExp q with he
  set m := scaledNum q with hm
  set ds := paddedDigits q with hds
  have hlen0 : 0 < (natDigits m.natAbs).length :=
    List.length_pos.mpr (natDigits_ne_nil m.natAbs)
  have hdseq : ds = List.replicate (e + 1 - (natDigits m.natAbs).length) '0' ++
      natDigits m.natAbs := rfl
  have hlen : e + 1 ≤ ds.length := by
    rw [hdseq, List.length_append, List.length_replicate]
    omega
  have hdsdigits : ∀ c ∈ ds, isDigitChar c = true := by
    intro c hc
    rw [hdseq] at hc
    rcases List.mem_append.mp hc with hc | hc
    · have : c = '0' := List.eq_of_mem_replicate hc
      subst this
      rfl
    · exact mem_natDigits_digit _ c hc
  have hval : digitsVal ds = m.natAbs := by
    rw [hdseq, digitsVal_pad, digitsVal_natDigits]
  set ip := ds.take (ds.length - e) with hip
  set fp := ds.drop (ds.length - e) with hfp
  have hipfp : ip ++ fp = ds := List.take_append_drop _ _
  have hiplen : ip.length = ds.length - e := by
    rw [hip, List.length_take]
    omega
  have hfplen : fp.length = e := by
    rw [hfp, List.length_drop]
    omega
  have hipne : ip ≠ [] := by
    apply List.ne_nil_of_length_pos
    omega
  have hipdig : ∀ c ∈ ip, isDigitChar c = true := fun c hc =>
    hdsdigits c (List.take_subset _ _ hc)
  have hfpdig : ∀ c ∈ fp, isDigitChar c = true := fun c hc =>
    hdsdigits c (List.drop_subset _ _ hc)
  have habs : ((m.natAbs : ℚ)) = bif decide (m < 0) then -(m : ℚ) else (m : ℚ) := by
    by_cases hm0 : m < 0
    · simp [hm0, Int.cast_natAbs, abs_of_neg (show (m : ℚ) < 0 by exact_mod_cast hm0)]
    · simp [hm0, Int.cast_natAbs,
        abs_of_nonneg (show (0 : ℚ) ≤ (m : ℚ) by exact_mod_cast not_lt.mp hm0)]
  have hqdiv := q_eq_scaledNum_div q h
  rw [← he, ← hm] at hqdiv
  by_cases he0 : e = 0
  · -- integral value: rendered as "<digits>.0"
    have hdata : (renderQ q).data =
        (if decide (m < 0) then ['-'] else []) ++ (ip ++ '.' :: ['0']) := by
      rw [renderQ, ← he, ← hm, ← hds, ← hip, ← hfp, if_pos he0]
      by_cases hm0 : m < 0 <;> simp [hm0, String.data_append]
    rw [parseQ_shape (renderQ q) (decide (m < 0)) ip ['0'] hdata hipne (by simp)
      hipdig (by intro c hc; simp at hc; subst hc; rfl)]
    have hipds : ip = ds := by
      rw [hip, he0, Nat.sub_zero, List.take_length]
    have hv : (digitsVal ip : ℚ) + (digitsVal ['0'] : ℚ) / (10 : ℚ) ^ (['0'] : List Char).length
        = (m.natAbs : ℚ) := by
      rw [hipds, hval, digitsVal_zero_singleton]
      norm_num
    have hq : q = (m : ℚ) := by
      rw [hqdiv, he0]
      norm_num
    congr 1
    rw [hv, habs, hq]
    cases hb : decide (m < 0) <;> simp
  · -- fractional value: rendered as "<digits>.<digits>"
    have hfpne : fp ≠ [] := by
      apply List.ne_nil_of_length_pos
      omega
    have hdata : (renderQ q).data =
        (if decide (m < 0) then ['-'] else []) ++ (ip ++ '.' :: fp) := by
      rw [renderQ, ← he, ← hm, ← hds, ← hip, ← hfp, if_neg he0]
      by_cases hm0 : m < 0 <;> simp [hm0, String.data_append]
    rw [parseQ_shape (renderQ q) (decide (m < 0)) ip fp hdata hipne hfpne hipdig hfpdig]
    have hsum : digitsVal ip * 10 ^ e + digitsVal fp = m.natAbs := by
      rw [← hfplen, ← digitsVal_append, hipfp, hval]
    have h10 : ((10 : ℚ) ^ e) ≠ 0 := by positivity
    have hv : (digitsVal ip : ℚ) + (digitsVal fp : ℚ) / (10 : ℚ) ^ fp.length
        = (m.natAbs : ℚ) / (10 : ℚ) ^ e := by
      rw [hfplen, ← hsum]
      push_cast
      field_simp
    congr 1
    rw [hv, habs]
    cases hb : decide (m < 0) <;> simp [neg_div, ← hqdiv]

theorem parseIntStr_shape (s : String) (sign : Bool) (ds : List Char)
    (hs : s.data = (if sign then ['-'] else []) ++ ds)
    (hne : ds ≠ []) (hdig : ∀ c ∈ ds, isDigitChar c = true) :
    parseIntStr s =
      some (bif sign then -(digitsVal ds : ℤ) else (digitsVal ds : ℤ)) := by
  have hall : ds.all isDigitChar = true := List.all_eq_true.mpr hdig
  have hdse : ds.isEmpty = false := by simp [List.isEmpty_iff, hne]
  have hsplit : splitSign s.data = (sign, ds) := by
    rw [hs]
    cases sign with
    | false =>
      cases ds with
      | nil => exact absurd rfl hne
      | cons d0 ds' =>
        have hne0 : (d0 == '-') = false := isDigitChar_ne_hyphen (hdig d0 (by simp))
        simp [splitSign, hne0]
    | true => simp [splitSign]
  simp [parseIntStr, hsplit, hall, hdse]

theorem parseIntStr_renderInt (n : ℤ) : parseIntStr (renderInt n) = some n := by
  have hdata : (renderInt n).data =
      (if decide (n < 0) then ['-'] else []) ++ natDigits n.natAbs := by
    rw [renderInt]
    by_cases hn0 : n < 0 <;> simp [hn0, String.data_append]
  rw [parseIntStr_shape (renderInt n) (decide (n < 0)) (natDigits n.natAbs) hdata
    (natDigits_ne_nil _) (mem_natDigits_digit _)]
  rw [digitsVal_natDigits]
  have habs : ((n.natAbs : ℤ)) = |n| := (Int.abs_eq_natAbs n).symm
  by_cases hn0 : n < 0
  · simp [hn0, habs, abs_of_neg hn0]
  · simp [hn0, habs, abs_of_nonneg (not_lt.mp hn0)]


/-! ### Lemmas: CSV writing and reparsing -/

theorem needsQuote_false_spec {f : String} (h : needsQuote f = false) :
    ∀ c ∈ f.data, c ≠ ',' ∧ c ≠ '"' ∧ c ≠ '\n' ∧ c ≠ '\r' := by
  intro c hc
  rw [needsQuote, List.any_eq_false] at h
  have h3 := h c hc
  refine ⟨fun he => ?_, fun he => ?_, fun he => ?_, fun he => ?_⟩ <;>
    (subst he; simp at h3)

theorem parseQuotedBody_escape :
    ∀ (s rest : List Char), (∀ c cs, rest = c :: cs → c ≠ '"') →
      parseQuotedBody (escapeQuotes s ++ '"' :: rest) = some (s, rest) := by
  intro s
  induction s with
  | nil =>
    intro rest hrest
    cases rest with
    | nil => rfl
    | cons c cs => simp [escapeQuotes, parseQuotedBody, hrest c cs rfl]
  | cons a s ih =>
    intro rest hrest
    by_cases ha : a = '"'
    · subst ha
      simp [escapeQuotes, parseQuotedBody, ih rest hrest]
    · rw [show escapeQuotes (a :: s) = a :: escapeQuotes s by simp [escapeQuotes, ha]]
      rw [List.cons_append, parseQuotedBody.eq_def]
      simp only [if_neg ha]
      rw [ih rest hrest]

theorem rawSpan_append :
    ∀ (f rest : List Char), (∀ c ∈ f, ¬(c = ',' ∨ c = '\n')) →
      (rest = [] ∨ ∃ cs, rest = ',' :: cs ∨ rest = '\n' :: cs) →
      rawSpan (f ++ rest) = (f, rest) := by
  intro f
  induction f with
  | nil =>
    intro rest _ hrest
    rcases hrest with rfl | ⟨cs, rfl | rfl⟩ <;> simp [rawSpan]
  | cons a f ih =>
    intro rest hf hrest
    have ha : ¬(a = ',' ∨ a = '\n') := hf a (by simp)
    simp only [List.cons_append, rawSpan, if_neg ha, List.append_eq]
    rw [ih rest (fun c hc => hf c (by simp [hc])) hrest]

theorem parseOneField_writeField (f : String) (rest : List Char)
    (hrest : rest = [] ∨ ∃ cs, rest = ',' :: cs ∨ rest = '\n' :: cs) :
    parseOneField ((writeField f).data ++ rest) = some (f.data, rest) := by
  by_cases hq : needsQuote f = true
  · have hdata : (writeField f).data ++ rest = '"' :: (escapeQuotes f.data ++ '"' :: rest) := by
      simp [writeField, hq, String.data_append]
    rw [hdata, parseOneField, if_pos rfl]
    apply parseQuotedBody_escape
    intro c cs hc
    rcases hrest with rfl | ⟨cs2, rfl | rfl⟩ <;> cases hc <;> decide
  · have hq' : needsQuote f = false := by
      cases hnq : needsQuote f
      · rfl
      · exact absurd hnq hq
    have hspec := needsQuote_false_spec hq'
    have hdata : (writeField f).data = f.data := by simp [writeField, hq']
    rw [hdata]
    have hraw : rawSpan (f.data ++ rest) = (f.data, rest) := by
      apply rawSpan_append f.data rest
      · intro c hc
        have := hspec c hc
        tauto
      · exact hrest
    cases hfd : f.data with
    | nil =>
      simp only [List.nil_append]
      rcases hrest with rfl | ⟨cs, rfl | rfl⟩
      · rfl
      · rw [parseOneField, if_neg (by decide)]
        rw [hfd] at hraw
        simpa using hraw
      · rw [parseOneField, if_neg (by decide)]
        rw [hfd] at hraw
        simpa using hraw
    | cons a as =>
      have ha : a ≠ '"' := by
        have := hspec a (by rw [hfd]; simp)
        tauto
      simp only [List.cons_append]
      rw [parseOneField, if_neg ha]
      rw [hfd] at hraw
      simp only [List.cons_append] at hraw
      rw [hraw]

theorem parseFieldsAux_writeRow :
    ∀ (fields : List String) (fuel : ℕ) (rest : List Char),
      fields ≠ [] → fields.length ≤ fuel →
      parseFieldsAux fuel ((writeRow fields).data ++ '\n' :: rest) = some (fields, rest) := by
  intro fields
  induction fields with
  | nil => intro fuel rest h _; exact absurd rfl h
  | cons f fs ih =>
    intro fuel rest _ hlen
    cases fuel with
    | zero => simp at hlen
    | succ fuel =>
      cases fs with
      | nil =>
        have h1 := parseOneField_writeField f ('\n' :: rest) (Or.inr ⟨rest, Or.inr rfl⟩)
        rw [show writeRow [f] = writeField f from rfl, parseFieldsAux, h1]
        simp
      | cons f2 fs2 =>
        have hdata : (writeRow (f :: f2 :: fs2)).data ++ '\n' :: rest =
            (writeField f).data ++ ',' :: ((writeRow (f2 :: fs2)).data ++ '\n' :: rest) := by
          rw [show writeRow (f :: f2 :: fs2) = writeField f ++ "," ++ writeRow (f2 :: fs2) from rfl]
          simp [String.data_append]
        have h1 := parseOneField_writeField f (',' :: ((writeRow (f2 :: fs2)).data ++ '\n' :: rest))
          (Or.inr ⟨_, Or.inl rfl⟩)
        have h2 := ih fuel rest (by simp) (by simpa using Nat.lt_succ_iff.mp (by simpa using hlen))
        rw [hdata, parseFieldsAux, h1]
        simp [h2]

theorem parseRowsAux_nil (fuel : ℕ) : parseRowsAux fuel [] = some [] := by
  cases fuel <;> rfl

theorem parseRowsAux_cons (fuel : ℕ) (cs : List Char) (hcs : cs ≠ []) :
    parseRowsAux (fuel + 1) cs =
      match parseFieldsAux (cs.length + 1) cs with
      | none => none
      | some (fs, rest) =>
        match parseRowsAux fuel rest with
        | some rows => some (fs :: rows)
        | none => none := by
  cases cs with
  | nil => exact absurd rfl hcs
  | cons a as => rfl

theorem length_le_writeRow_data :
    ∀ fields : List String, fields.length ≤ (writeRow fields).data.length + 1 := by
  intro fields
  induction fields with
  | nil => simp
  | cons f fs ih =>
    cases fs with
    | nil => simp
    | cons f2 fs2 =>
      rw [show writeRow (f :: f2 :: fs2) = writeField f ++ "," ++ writeRow (f2 :: fs2) from rfl]
      simp only [String.data_append, List.length_append, List.length_cons]
      simp only [List.length_cons] at ih ⊢
      have : ("," : String).data.length = 1 := rfl
      omega

theorem rows_length_le_csvLines :
    ∀ rows : List (List String), rows.length ≤ (csvLines rows).data.length := by
  intro rows
  induction rows with
  | nil => simp [csvLines]
  | cons r rows ih =>
    rw [show csvLines (r :: rows) = writeRow r ++ "\n" ++ csvLines rows from rfl]
    simp only [String.data_append, List.length_append, List.length_cons]
    have : ("\n" : String).data.length = 1 := rfl
    omega

theorem parseRowsAux_csvLines :
    ∀ (rows : List (List String)) (fuel : ℕ),
      (∀ row ∈ rows, row ≠ []) → rows.length < fuel →
      parseRowsAux fuel (csvLines rows).data = some rows := by
  intro rows
  induction rows with
  | nil =>
    intro fuel _ _
    rw [show csvLines [] = "" from rfl]
    exact parseRowsAux_nil fuel
  | cons r rows ih =>
    intro fuel hne hlt
    cases fuel with
    | zero => simp at hlt
    | succ fuel =>
      have hdata : (csvLines (r :: rows)).data =
          (writeRow r).data ++ '\n' :: (csvLines rows).data := by
        rw [show csvLines (r :: rows) = writeRow r ++ "\n" ++ csvLines rows from rfl]
        simp [String.data_append]
      have hcs : (writeRow r).data ++ '\n' :: (csvLines rows).data ≠ [] := by
        simp
      rw [hdata, parseRowsAux_cons fuel _ hcs]
      have hbound : r.length ≤ ((writeRow r).data ++ '\n' :: (csvLines rows).data).length + 1 := by
        have := length_le_writeRow_data r
        simp only [List.length_append, List.length_cons]
        omega
      rw [parseFieldsAux_writeRow r _ _ (hne r (by simp)) hbound]
      have hih := ih fuel (fun row hrow => hne row (by simp [hrow]))
        (by simpa using Nat.lt_succ_iff.mp hlt)
      simp [hih]

theorem csv_parse_to_csv (rs : List QuakeRecord) :
    csv_parse (to_csv rs) = some (csvHeaderRow :: rs.map recordFields) := by
  rw [csv_parse, to_csv]
  apply parseRowsAux_csvLines
  · intro row hrow
    rcases List.mem_cons.mp hrow with rfl | h
    · simp [csvHeaderRow]
    · obtain ⟨r, _, rfl⟩ := List.mem_map.mp h
      simp [recordFields]
  · have := rows_length_le_csvLines (csvHeaderRow :: rs.map recordFields)
    omega

theorem decodeRow_recordFields (r : QuakeRecord) (h : goodRecord r = true) :
    decodeRow (recordFields r) = some r := by
  have h3 : goodQ r.magnitude = true ∧ goodQ r.lat = true ∧ goodQ r.lon = true := by
    simpa [goodRecord, Bool.and_eq_true, and_assoc] using h
  obtain ⟨hm, hla, hlo⟩ := h3
  simp [decodeRow, recordFields, renderTimestamp, parseQ_renderQ _ hm, parseQ_renderQ _ hla,
    parseQ_renderQ _ hlo, parseIntStr_renderInt]

theorem mapM_decodeRow (rs : List QuakeRecord) (h : ∀ r ∈ rs, goodRecord r = true) :
    (rs.map recordFields).mapM decodeRow = some rs := by
  induction rs with
  | nil => rfl
  | cons r rs ih =>
    rw [List.map_cons, List.mapM_cons]
    rw [decodeRow_recordFields r (h r (by simp)), ih (fun x hx => h x (by simp [hx]))]
    rfl

theorem parse_report_to_csv (rs : List QuakeRecord) (h : ∀ r ∈ rs, goodRecord r = true) :
    parse_report (to_csv rs) = some rs := by
  rw [parse_report, csv_parse_to_csv]
  show (if csvHeaderRow = csvHeaderRow then (rs.map recordFields).mapM decodeRow else none)
      = some rs
  rw [if_pos rfl]
  exact mapM_decodeRow rs h

/-! ### Lemmas: script-level behaviour -/

theorem analyzeHandler_summary (s : SessionState) (geo : GeoResponse) (quake : QuakeResponse) :
    (analyzeHandler s geo quake).state.summary = s.summary := by
  simp only [analyzeHandler]
  split
  · split <;> rfl
  · rfl

theorem reportSection_analyze (cfg : Bool) (s : SessionState) (geo : GeoResponse)
    (quake : QuakeResponse) :
    (reportAndSummarySection cfg s (UserAction.analyzeSite geo quake)).state = s ∧
    (reportAndSummarySection cfg s (UserAction.analyzeSite geo quake)).genServiceCalled = false := by
  simp only [reportAndSummarySection]
  split
  · exact ⟨rfl, rfl⟩
  · split
    · split
      · exact ⟨rfl, rfl⟩
      · exact ⟨rfl, rfl⟩
    · exact ⟨rfl, rfl⟩

theorem runScript_analyze_geoFail (cfg : Bool) (s0 : SessionState) (geo : GeoResponse)
    (quake : QuakeResponse) (hg : (geocode_address geo).lat = none) :
    (runScript cfg s0 (UserAction.analyzeSite geo quake)).state = s0 ∧
    (runScript cfg s0 (UserAction.analyzeSite geo quake)).fetchCalled = false ∧
    (runScript cfg s0 (UserAction.analyzeSite geo quake)).geoErrorShown =
      (geocode_address geo).errorShown := by
  have ha : analyzeHandler s0 geo quake =
      ⟨s0, false, (geocode_address geo).errorShown, false, none, false⟩ := by
    simp [analyzeHandler, hg, truthyFloat]
  have hr := reportSection_analyze cfg s0 geo quake
  simp only [runScript, ha]
  split
  · exact ⟨rfl, rfl, rfl⟩
  · split
    · exact ⟨hr.1, rfl, rfl⟩
    · exact ⟨hr.1, rfl, rfl⟩

theorem runScript_analyze_geoOk (cfg : Bool) (s0 : SessionState) (geo : GeoResponse)
    (quake : QuakeResponse) (la lo : ℚ) (dn ge : Option String)
    (recs : List QuakeRecord) (fe : Option String)
    (hg : geocode_address geo = ⟨some la, some lo, dn, ge⟩)
    (hla : la ≠ 0) (hlo : lo ≠ 0)
    (hq : get_nearby_earthquakes quake = FetchOut.ok recs fe) :
    runScript cfg s0 (UserAction.analyzeSite geo quake) =
      { state := { lat := some la, lon := some lo, full_address := some dn,
                   df := some recs, summary := s0.summary },
        crashed := false,
        geoErrorShown := ge,
        fetchCalled := true,
        fetchErrorShown := fe,
        successShown := true,
        reportSectionShown := true,
        eventsTableShown := !recs.isEmpty,
        noActivityInfoShown := recs.isEmpty,
        aiWarningShown := !cfg,
        generateButtonShown := cfg,
        genServiceCalled := false,
        summaryRendered := s0.summary } := by
  have hla' : (la == 0) = false := by simpa using hla
  have hlo' : (lo == 0) = false := by simpa using hlo
  have ha : analyzeHandler s0 geo quake =
      ⟨{ s0 with lat := some la, lon := some lo, full_address := some dn, df := some recs },
        false, ge, true, fe, true⟩ := by
    simp [analyzeHandler, hg, hq, truthyFloat, hla', hlo']
  simp only [runScript, ha]
  cases cfg <;> simp [reportAndSummarySection]

/-- C1 (amended): for every geocoding attempt that fails — the request
raising an error, or the endpoint returning zero matches — the Resolver
returns null coordinates, no retry is attempted (one response is consumed
per attempt), `get_nearby_earthquakes` is not called, and no session
field is updated.  The failure is surfaced as a visible error message
when the HTTP request fails, but a zero-match response produces no
visible error message. -/
theorem c1_geocode_failure (cfg : Bool) (s0 : SessionState) (quake : QuakeResponse) :
    (∀ e : String,
      geocode_address (GeoResponse.requestError e) =
        ⟨none, none, none, some ("Geocoding API failed: " ++ e)⟩ ∧
      (runScript cfg s0
        (UserAction.analyzeSite (GeoResponse.requestError e) quake)).geoErrorShown =
        some ("Geocoding API failed: " ++ e) ∧
      (runScript cfg s0
        (UserAction.analyzeSite (GeoResponse.requestError e) quake)).fetchCalled = false ∧
      (runScript cfg s0
        (UserAction.analyzeSite (GeoResponse.requestError e) quake)).state = s0) ∧
    (geocode_address (GeoResponse.ok []) = ⟨none, none, none, none⟩ ∧
      (runScript cfg s0 (UserAction.analyzeSite (GeoResponse.ok []) quake)).geoErrorShown = none ∧
      (runScript cfg s0 (UserAction.analyzeSite (GeoResponse.ok []) quake)).fetchCalled = false ∧
      (runScript cfg s0 (UserAction.analyzeSite (GeoResponse.ok []) quake)).state = s0) := by
  constructor
  · intro e
    have h := runScript_analyze_geoFail cfg s0 (GeoResponse.requestError e) quake rfl
    exact ⟨rfl, h.2.2, h.2.1, h.1⟩
  · have h := runScript_analyze_geoFail cfg s0 (GeoResponse.ok []) quake rfl
    exact ⟨rfl, h.2.2, h.2.1, h.1⟩

/-- C1 counterexample: a zero-match geocoding response is a failed
attempt (the Resolver returns all-null), yet no visible error message is
shown, refuting "the failure is surfaced to the user as a visible error
message" for that case. -/
theorem c1_zero_match_silent_counterexample :
    (geocode_address (GeoResponse.ok [])).lat = none ∧
    (geocode_address (GeoResponse.ok [])).lon = none ∧
    (geocode_address (GeoResponse.ok [])).display_name = none ∧
    (runScript true initialSession
      (UserAction.analyzeSite (GeoResponse.ok []) (QuakeResponse.ok []))).geoErrorShown = none ∧
    (runScript true initialSession
      (UserAction.analyzeSite (GeoResponse.ok []) (QuakeResponse.ok []))).crashed = false := by
  decide

/-- C2 (amended): for every address the Resolver resolves to a latitude
and longitude that are both non-null and nonzero (Python truthiness),
the Fetcher runs and the latitude, longitude, display name, and seismic
report are stored in session state. -/
theorem c2_resolver_success_runs_fetcher (cfg : Bool) (s0 : SessionState) (geo : GeoResponse)
    (quake : QuakeResponse) (la lo : ℚ) (dn ge : Option String)
    (recs : List QuakeRecord) (fe : Option String)
    (hg : geocode_address geo = ⟨some la, some lo, dn, ge⟩)
    (hla : la ≠ 0) (hlo : lo ≠ 0)
    (hq : get_nearby_earthquakes quake = FetchOut.ok recs fe) :
    (runScript cfg s0 (UserAction.analyzeSite geo quake)).fetchCalled = true ∧
    (runScript cfg s0 (UserAction.analyzeSite geo quake)).state.lat = some la ∧
    (runScript cfg s0 (UserAction.analyzeSite geo quake)).state.lon = some lo ∧
    (runScript cfg s0 (UserAction.analyzeSite geo quake)).state.full_address = some dn ∧
    (runScript cfg s0 (UserAction.analyzeSite geo quake)).state.df = some recs := by
  rw [runScript_analyze_geoOk cfg s0 geo quake la lo dn ge recs fe hg hla hlo hq]
  exact ⟨rfl, rfl, rfl, rfl, rfl⟩

/-- C2 witness. -/
theorem c2_resolver_success_runs_fetcher_witness :
    (runScript true initialSession (UserAction.analyzeSite
      (GeoResponse.ok [⟨37, -122, some "Mountain View"⟩]) (QuakeResponse.ok []))).fetchCalled
      = true ∧
    (runScript true initialSession (UserAction.analyzeSite
      (GeoResponse.ok [⟨37, -122, some "Mountain View"⟩]) (QuakeResponse.ok []))).state.lat
      = some 37 ∧
    (runScript true initialSession (UserAction.analyzeSite
      (GeoResponse.ok [⟨37, -122, some "Mountain View"⟩]) (QuakeResponse.ok []))).state.lon
      = some (-122) ∧
    (runScript true initialSession (UserAction.analyzeSite
      (GeoResponse.ok [⟨37, -122, some "Mountain View"⟩]) (QuakeResponse.ok []))).state.full_address
      = some (some "Mountain View") ∧
    (runScript true initialSession (UserAction.analyzeSite
      (GeoResponse.ok [⟨37, -122, some "Mountain View"⟩]) (QuakeResponse.ok []))).state.df
      = some [] :=
  c2_resolver_success_runs_fetcher true initialSession
    (GeoResponse.ok [⟨37, -122, some "Mountain View"⟩]) (QuakeResponse.ok [])
    37 (-122) (some "Mountain View") none [] none rfl (by decide) (by decide) rfl

/-- C2 counterexample: a geocoding response whose first entry has
latitude 0.0 is a successful resolution (non-null latitude, longitude
and display name are returned), yet the Fetcher does not run and no
session field is stored, because `if lat and lon:` treats the float 0.0
as falsy. -/
theorem c2_zero_coordinate_counterexample :
    geocode_address (GeoResponse.ok [⟨0, 10, some "Null Island"⟩]) =
      ⟨some 0, some 10, some "Null Island", none⟩ ∧
    (runScript true initialSession (UserAction.analyzeSite
      (GeoResponse.ok [⟨0, 10, some "Null Island"⟩]) (QuakeResponse.ok []))).fetchCalled
      = false ∧
    (runScript true initialSession (UserAction.analyzeSite
      (GeoResponse.ok [⟨0, 10, some "Null Island"⟩]) (QuakeResponse.ok []))).state
      = initialSession := by
  decide

/-- C3 (amended): for every geocoding response resolving at least one
location, the Resolver returns non-null latitude and longitude parsed
from the first entry, and the `display_name` of the first entry read via
`.get` — which is null exactly when that field is absent. -/
theorem c3_first_entry_used (d : GeoEntry) (rest : List GeoEntry) :
    geocode_address (GeoResponse.ok (d :: rest)) =
      ⟨some d.lat, some d.lon, d.display_name, none⟩ ∧
    (geocode_address (GeoResponse.ok (d :: rest))).lat ≠ none ∧
    (geocode_address (GeoResponse.ok (d :: rest))).lon ≠ none :=
  ⟨rfl, by simp [geocode_address], by simp [geocode_address]⟩

/-- C3 counterexample: a response resolving one location whose first
entry lacks `display_name` makes the Resolver return a null
`display_name`, refuting "returns ... non-null display_name". -/
theorem c3_missing_display_name_counterexample :
    ([(⟨4, -122, none⟩ : GeoEntry)] : List GeoEntry).length = 1 ∧
    (geocode_address (GeoResponse.ok [⟨4, -122, none⟩])).display_name = none := by
  decide

theorem mapM_featureToRecord (fs : List Feature)
    (h : ∀ f ∈ fs, 2 ≤ f.coordinates.length) :
    fs.mapM featureToRecord = some (fs.map expectedQuakeRecord) := by
  induction fs with
  | nil => rfl
  | cons f fs ih =>
    have h2 : 2 ≤ f.coordinates.length := h f (by simp)
    have h1 : f.coordinates[1]? = some (f.coordinates.getD 1 0) := by
      rw [List.getD_eq_getElem?_getD, List.getElem?_eq_getElem (by omega)]
      rfl
    have h0 : f.coordinates[0]? = some (f.coordinates.getD 0 0) := by
      rw [List.getD_eq_getElem?_getD, List.getElem?_eq_getElem (by omega)]
      rfl
    have hf : featureToRecord f = some (expectedQuakeRecord f) := by
      rw [featureToRecord, h1, h0]
      rfl
    rw [List.mapM_cons, hf, ih (fun x hx => h x (by simp [hx]))]
    rfl

/-- C4: for every catalog response of N well-formed features, the
Fetcher returns exactly the N records, in order, with `place` and
`magnitude` copied from `properties`, `time` the epoch-milliseconds
value converted to a calendar timestamp, `lat` the second coordinate and
`lon` the first (swapping the source's [lon, lat] order), and shows no
error. -/
theorem c4_fetcher_report (fs : List Feature)
    (h : ∀ f ∈ fs, 2 ≤ f.coordinates.length) :
    get_nearby_earthquakes (QuakeResponse.ok fs) =
      FetchOut.ok (fs.map expectedQuakeRecord) none ∧
    (fs.map expectedQuakeRecord).length = fs.length := by
  constructor
  · rw [get_nearby_earthquakes, mapM_featureToRecord fs h]
  · simp

/-- C4 witness. -/
theorem c4_fetcher_report_witness :
    (∀ f ∈ [(⟨"5km W of Town", 3, 1700000000000, [10, 20, 5]⟩ : Feature)],
      2 ≤ f.coordinates.length) ∧
    get_nearby_earthquakes (QuakeResponse.ok
      [⟨"5km W of Town", 3, 1700000000000, [10, 20, 5]⟩]) =
      FetchOut.ok [⟨"5km W of Town", 3, ⟨1700000000000⟩, 20, 10⟩] none :=
  ⟨by decide, by
    have := (c4_fetcher_report [⟨"5km W of Town", 3, 1700000000000, [10, 20, 5]⟩]
      (by decide)).1
    simpa [expectedQuakeRecord, pd_to_datetime_ms] using this⟩

/-- C5: a seismic fetch whose HTTP request fails surfaces a visible
error message, returns an empty result set, and the pipeline continues
non-fatally: the empty report is stored in session state and rendered as
the "no events found" branch. -/
theorem c5_fetch_failure_degrades (cfg : Bool) (s0 : SessionState) (geo : GeoResponse)
    (e : String) (la lo : ℚ) (dn ge : Option String)
    (hg : geocode_address geo = ⟨some la, some lo, dn, ge⟩)
    (hla : la ≠ 0) (hlo : lo ≠ 0) :
    (runScript cfg s0
      (UserAction.analyzeSite geo (QuakeResponse.requestError e))).fetchErrorShown =
      some ("USGS Earthquake API failed: " ++ e) ∧
    (runScript cfg s0
      (UserAction.analyzeSite geo (QuakeResponse.requestError e))).state.df = some [] ∧
    (runScript cfg s0
      (UserAction.analyzeSite geo (QuakeResponse.requestError e))).crashed = false ∧
    (runScript cfg s0
      (UserAction.analyzeSite geo (QuakeResponse.requestError e))).reportSectionShown = true ∧
    (runScript cfg s0
      (UserAction.analyzeSite geo (QuakeResponse.requestError e))).noActivityInfoShown = true ∧
    (runScript cfg s0
      (UserAction.analyzeSite geo (QuakeResponse.requestError e))).eventsTableShown = false := by
  rw [runScript_analyze_geoOk cfg s0 geo (QuakeResponse.requestError e) la lo dn ge []
    (some ("USGS Earthquake API failed: " ++ e)) hg hla hlo rfl]
  exact ⟨rfl, rfl, rfl, rfl, rfl, rfl⟩

/-- C5 witness. -/
theorem c5_fetch_failure_degrades_witness :
    (runScript true initialSession (UserAction.analyzeSite
      (GeoResponse.ok [⟨37, -122, some "Mountain View"⟩])
      (QuakeResponse.requestError "timeout"))).fetchErrorShown =
      some ("USGS Earthquake API failed: " ++ "timeout") ∧
    (runScript true initialSession (UserAction.analyzeSite
      (GeoResponse.ok [⟨37, -122, some "Mountain View"⟩])
      (QuakeResponse.requestError "timeout"))).state.df = some [] ∧
    (runScript true initialSession (UserAction.analyzeSite
      (GeoResponse.ok [⟨37, -122, some "Mountain View"⟩])
      (QuakeResponse.requestError "timeout"))).crashed = false ∧
    (runScript true initialSession (UserAction.analyzeSite
      (GeoResponse.ok [⟨37, -122, some "Mountain View"⟩])
      (QuakeResponse.requestError "timeout"))).reportSectionShown = true ∧
    (runScript true initialSession (UserAction.analyzeSite
      (GeoResponse.ok [⟨37, -122, some "Mountain View"⟩])
      (QuakeResponse.requestError "timeout"))).noActivityInfoShown = true ∧
    (runScript true initialSession (UserAction.analyzeSite
      (GeoResponse.ok [⟨37, -122, some "Mountain View"⟩])
      (QuakeResponse.requestError "timeout"))).eventsTableShown = false :=
  c5_fetch_failure_degrades true initialSession
    (GeoResponse.ok [⟨37, -122, some "Mountain View"⟩]) "timeout"
    37 (-122) (some "Mountain View") none rfl (by decide) (by decide)

/-! ### Lemmas and claims: narrative generator and session rendering -/

theorem ratLeB_iff (a b : ℚ) : ratLeB a b = true ↔ a ≤ b := by
  rw [ratLeB, decide_eq_true_iff]
  exact Rat.le_def.symm

theorem ratMax_eq_max (a b : ℚ) : ratMax a b = max a b := by
  rw [ratMax, max_def]
  by_cases h : a ≤ b
  · rw [if_pos ((ratLeB_iff a b).mpr h), if_pos h]
  · rw [if_neg (show ¬ratLeB a b = true from fun hh => h ((ratLeB_iff a b).mp hh)), if_neg h]

theorem containsSub_middle (x y z : String) : containsSub (x ++ y ++ z) y :=
  ⟨x.data, z.data, by simp [String.data_append]⟩

/-- C6: with the service configured, the Narrative Generator sends
exactly the prompt built from the report; for an empty report that
prompt asserts that no recent seismic activity was found, framed as a
positive sign for geological stability, and for a non-empty report it
contains the exact event count and the maximum magnitude formatted to
two decimal places. -/
theorem c6_prompt_contents (fa : Option String) (df : List QuakeRecord) (svc : GenResponse)
    (h : df ≠ []) :
    (generate_ai_summary true fa [] svc).prompt_sent = some (build_prompt fa []) ∧
    containsSub (build_prompt fa []) "no recent seismic activity was found" ∧
    containsSub (build_prompt fa []) "positive sign for geological stability" ∧
    (generate_ai_summary true fa df svc).prompt_sent = some (build_prompt fa df) ∧
    containsSub (build_prompt fa df)
      ("The analysis found " ++ Nat.repr df.length ++ " recent seismic events nearby") ∧
    containsSub (build_prompt fa df)
      ("The largest magnitude was " ++ format2f (magMax df)) := by
  have hsent : ∀ dfx : List QuakeRecord,
      (generate_ai_summary true fa dfx svc).prompt_sent = some (build_prompt fa dfx) := by
    intro dfx
    cases svc <;> rfl
  have hne : df.isEmpty = false := by simp [List.isEmpty_iff, h]
  refine ⟨hsent [], ?_, ?_, hsent df, ?_, ?_⟩
  · have hb : build_prompt fa [] =
        ("Write a brief, one-paragraph site analysis summary for the location: " ++
          pyStrOfOptStr fa ++ ". State that ") ++ "no recent seismic activity was found" ++
          (" in the immediate vicinity, which is a " ++
            "positive sign for geological stability" ++ ".") := by
      simp [build_prompt, String.append_assoc]
    rw [hb]
    exact containsSub_middle _ _ _
  · have hb : build_prompt fa [] =
        ("Write a brief, one-paragraph site analysis summary for the location: " ++
          pyStrOfOptStr fa ++ ". State that " ++ "no recent seismic activity was found" ++
          " in the immediate vicinity, which is a ") ++
          "positive sign for geological stability" ++ "." := by
      simp [build_prompt, String.append_assoc]
    rw [hb]
    exact containsSub_middle _ _ _
  · refine ⟨("Write a brief, one-paragraph site analysis summary for the location: ").data ++
      ((pyStrOfOptStr fa).data ++ (". ").data),
      (". ").data ++ (("The largest magnitude was ").data ++ ((format2f (magMax df)).data ++
        ((".").data ++ ((" ").data ++
          ("Briefly explain what this might mean for a site risk assessment in a professional but easy-to-understand tone.").data)))), ?_⟩
    simp only [build_prompt, hne, Bool.false_eq_true, if_false, String.data_append,
      List.append_assoc]
  · refine ⟨("Write a brief, one-paragraph site analysis summary for the location: ").data ++
      ((pyStrOfOptStr fa).data ++ ((". ").data ++ (("The analysis found ").data ++
        ((Nat.repr df.length).data ++ ((" recent seismic events nearby").data ++
          (". ").data))))),
      (".").data ++ ((" ").data ++
        ("Briefly explain what this might mean for a site risk assessment in a professional but easy-to-understand tone.").data), ?_⟩
    simp only [build_prompt, hne, Bool.false_eq_true, if_false, String.data_append,
      List.append_assoc]

/-- C6 witness. -/
theorem c6_prompt_contents_witness :
    ([(⟨"p", 4, ⟨0⟩, 1, 2⟩ : QuakeRecord)] : List QuakeRecord) ≠ [] ∧
    ((generate_ai_summary true (some "X") [] (GenResponse.text "ok")).prompt_sent =
        some (build_prompt (some "X") []) ∧
      containsSub (build_prompt (some "X") []) "no recent seismic activity was found" ∧
      containsSub (build_prompt (some "X") []) "positive sign for geological stability" ∧
      (generate_ai_summary true (some "X") [⟨"p", 4, ⟨0⟩, 1, 2⟩]
          (GenResponse.text "ok")).prompt_sent =
        some (build_prompt (some "X") [⟨"p", 4, ⟨0⟩, 1, 2⟩]) ∧
      containsSub (build_prompt (some "X") [⟨"p", 4, ⟨0⟩, 1, 2⟩])
        ("The analysis found " ++
          Nat.repr ([(⟨"p", 4, ⟨0⟩, 1, 2⟩ : QuakeRecord)] : List QuakeRecord).length ++
          " recent seismic events nearby") ∧
      containsSub (build_prompt (some "X") [⟨"p", 4, ⟨0⟩, 1, 2⟩])
        ("The largest magnitude was " ++
          format2f (magMax [⟨"p", 4, ⟨0⟩, 1, 2⟩]))) :=
  ⟨by decide,
    c6_prompt_contents (some "X") [⟨"p", 4, ⟨0⟩, 1, 2⟩] (GenResponse.text "ok") (by decide)⟩

/-- C7: the Narrative Generator always returns a displayable string and
never propagates an exception: with no credential configured it returns
the static explanatory message without invoking the service; with the
credential set, a raised service error is caught and embedded into the
returned text, and a successful call's text is returned unchanged. -/
theorem c7_generator_total (fa : Option String) (df : List QuakeRecord) (t e : String) :
    (∀ svc : GenResponse, generate_ai_summary false fa df svc =
      ⟨"AI model is not configured. Please add your GOOGLE_API_KEY to the Streamlit secrets.",
        none⟩) ∧
    (generate_ai_summary true fa df (GenResponse.raises e)).result =
      "An error occurred with the AI model: " ++ e ∧
    (generate_ai_summary true fa df (GenResponse.text t)).result = t := by
  refine ⟨fun svc => ?_, rfl, rfl⟩
  cases svc <;> rfl

/-- C8: exporting a non-empty report to CSV (header row, UTF-8 text with
minimally quoted fields) and reparsing the file yields back exactly the
(place, magnitude, time, lat, lon) records of the in-memory report, for
every report whose float-valued fields are finite decimals (as every
Python float is). -/
theorem c8_csv_round_trip (rs : List QuakeRecord) (hne : rs ≠ [])
    (h : ∀ r ∈ rs, goodRecord r = true) :
    parse_report (to_csv rs) = some rs ∧ rs.length ≠ 0 := by
  refine ⟨parse_report_to_csv rs h, ?_⟩
  exact Nat.pos_iff_ne_zero.mp (List.length_pos.mpr hne)

/-- C8 witness: a two-record report containing a comma and quotes in a
place name round-trips through the CSV export. -/
theorem c8_csv_round_trip_witness :
    ([(⟨"10km NE of Null, \"Island\"", 4, ⟨1700000000123⟩, 37, -122⟩ : QuakeRecord),
       ⟨"plain place", -1, ⟨-5⟩, 0, 7⟩] : List QuakeRecord) ≠ [] ∧
    (∀ r ∈ ([(⟨"10km NE of Null, \"Island\"", 4, ⟨1700000000123⟩, 37, -122⟩ : QuakeRecord),
       ⟨"plain place", -1, ⟨-5⟩, 0, 7⟩] : List QuakeRecord), goodRecord r = true) ∧
    (parse_report (to_csv
      [⟨"10km NE of Null, \"Island\"", 4, ⟨1700000000123⟩, 37, -122⟩,
       ⟨"plain place", -1, ⟨-5⟩, 0, 7⟩]) =
      some [⟨"10km NE of Null, \"Island\"", 4, ⟨1700000000123⟩, 37, -122⟩,
       ⟨"plain place", -1, ⟨-5⟩, 0, 7⟩] ∧
      ([(⟨"10km NE of Null, \"Island\"", 4, ⟨1700000000123⟩, 37, -122⟩ : QuakeRecord),
       ⟨"plain place", -1, ⟨-5⟩, 0, 7⟩] : List QuakeRecord).length ≠ 0) :=
  ⟨by decide, by decide,
    c8_csv_round_trip
      [⟨"10km NE of Null, \"Island\"", 4, ⟨1700000000123⟩, 37, -122⟩,
       ⟨"plain place", -1, ⟨-5⟩, 0, 7⟩] (by decide) (by decide)⟩

theorem runScript_render_eq (cfg : Bool) (s0 : SessionState) (act : UserAction) :
    (runScript cfg s0 act).crashed = true ∨
    (runScript cfg s0 act).summaryRendered = (runScript cfg s0 act).state.summary := by
  simp only [runScript]
  split
  · exact Or.inl rfl
  · split
    · exact Or.inl rfl
    · exact Or.inr rfl

theorem runScript_analyze_summary (cfg : Bool) (s0 : SessionState) (geo : GeoResponse)
    (quake : QuakeResponse) :
    (runScript cfg s0 (UserAction.analyzeSite geo quake)).state.summary = s0.summary := by
  have ha := analyzeHandler_summary s0 geo quake
  have hr := reportSection_analyze cfg (analyzeHandler s0 geo quake).state geo quake
  simp only [runScript]
  split
  · exact ha
  · split
    · rw [hr.1]
      exact ha
    · rw [hr.1]
      exact ha

/-- C9: triggering a new analysis leaves previously generated narrative
text unchanged in the session — narrative text is overwritten only by an
explicit new generation — and in every completed rerun the narrative
text in the session is rendered exactly when present, whether it was
generated in this interaction or a prior one. -/
theorem c9_narrative_persistence (cfg : Bool) (s0 : SessionState) (geo : GeoResponse)
    (quake : QuakeResponse) (act : UserAction)
    (h : (runScript cfg s0 act).crashed = false) :
    (runScript cfg s0 (UserAction.analyzeSite geo quake)).state.summary = s0.summary ∧
    (runScript cfg s0 act).summaryRendered = (runScript cfg s0 act).state.summary := by
  refine ⟨runScript_analyze_summary cfg s0 geo quake, ?_⟩
  rcases runScript_render_eq cfg s0 act with hc | he
  · rw [h] at hc
    exact absurd hc (by simp)
  · exact he

/-- C9 witness. -/
theorem c9_narrative_persistence_witness :
    (runScript true (⟨some 1, some 2, some (some "A"), some [], some "old"⟩ : SessionState)
      (UserAction.generateSummary (GenResponse.text "new"))).crashed = false ∧
    ((runScript true (⟨some 1, some 2, some (some "A"), some [], some "old"⟩ : SessionState)
        (UserAction.analyzeSite (GeoResponse.ok []) (QuakeResponse.ok []))).state.summary =
      (⟨some 1, some 2, some (some "A"), some [], some "old"⟩ : SessionState).summary ∧
      (runScript true (⟨some 1, some 2, some (some "A"), some [], some "old"⟩ : SessionState)
        (UserAction.generateSummary (GenResponse.text "new"))).summaryRendered =
      (runScript true (⟨some 1, some 2, some (some "A"), some [], some "old"⟩ : SessionState)
        (UserAction.generateSummary (GenResponse.text "new"))).state.summary) :=
  ⟨by decide,
    c9_narrative_persistence true ⟨some 1, some 2, some (some "A"), some [], some "old"⟩
      (GeoResponse.ok []) (QuakeResponse.ok [])
      (UserAction.generateSummary (GenResponse.text "new")) (by decide)⟩

theorem reportSection_service_no_cred (s : SessionState) (act : UserAction) :
    (reportAndSummarySection false s act).genServiceCalled = false := by
  cases hdf : s.df with
  | none => simp [reportAndSummarySection, hdf]
  | some df =>
    cases hla : s.lat with
    | none => simp [reportAndSummarySection, hdf, hla]
    | some la =>
      cases hlo : s.lon with
      | none => simp [reportAndSummarySection, hdf, hla, hlo]
      | some lo => simp [reportAndSummarySection, hdf, hla, hlo]

theorem runScript_no_cred_service (s : SessionState) (act : UserAction) :
    (runScript false s act).genServiceCalled = false := by
  simp only [runScript]
  split
  · rfl
  · split
    · exact reportSection_service_no_cred _ _
    · exact reportSection_service_no_cred _ _

theorem reportSection_no_cred_fields (s : SessionState) (act : UserAction)
    (hdf : s.df.isSome = true)
    (hcr : (reportAndSummarySection false s act).crashed = false) :
    (reportAndSummarySection false s act).reportSectionShown = true ∧
    (reportAndSummarySection false s act).aiWarningShown = true ∧
    (reportAndSummarySection false s act).generateButtonShown = false := by
  obtain ⟨df, hdfeq⟩ := Option.isSome_iff_exists.mp hdf
  cases hla : s.lat with
  | none =>
    exfalso
    simp [reportAndSummarySection, hdfeq, hla] at hcr
  | some la =>
    cases hlo : s.lon with
    | none =>
      exfalso
      simp [reportAndSummarySection, hdfeq, hla, hlo] at hcr
    | some lo => simp [reportAndSummarySection, hdfeq, hla, hlo]

theorem analyzeHandler_df (s : SessionState) (geo : GeoResponse) (quake : QuakeResponse)
    (h : s.df.isSome = true) :
    (analyzeHandler s geo quake).state.df.isSome = true := by
  simp only [analyzeHandler]
  split
  · split <;> simp [h]
  · exact h

/-- C10: with the generative-language credential absent, no sequence of
user actions ever invokes the generative-language service (the first
conjunct holds for every session state and action), and whenever the
report section renders, the narrative control is the disabled-state
warning rather than the Generate trigger. -/
theorem c10_no_ai_without_credential (s : SessionState) (act : UserAction)
    (hc : (runScript false s act).crashed = false) (hdf : s.df.isSome = true) :
    (∀ s2 act2, (runScript false s2 act2).genServiceCalled = false) ∧
    (runScript false s act).reportSectionShown = true ∧
    (runScript false s act).aiWarningShown = true ∧
    (runScript false s act).generateButtonShown = false := by
  refine ⟨fun s2 act2 => runScript_no_cred_service s2 act2, ?_⟩
  cases act with
  | analyzeSite geo quake =>
    cases hacr : (analyzeHandler s geo quake).crashed with
    | true =>
      exfalso
      simp [runScript, hacr] at hc
    | false =>
      have hdfa := analyzeHandler_df s geo quake hdf
      have hrc : (reportAndSummarySection false (analyzeHandler s geo quake).state
          (UserAction.analyzeSite geo quake)).crashed = false := by
        by_contra hrc0
        have hrc1 : (reportAndSummarySection false (analyzeHandler s geo quake).state
            (UserAction.analyzeSite geo quake)).crashed = true := by
          simpa using hrc0
        simp [runScript, hacr, hrc1] at hc
      have hfields := reportSection_no_cred_fields _ (UserAction.analyzeSite geo quake) hdfa hrc
      simp only [runScript, hacr]
      split
      · next hcontra => simp at hcontra
      · split
        · exact ⟨hfields.1, hfields.2.1, hfields.2.2⟩
        · exact ⟨hfields.1, hfields.2.1, hfields.2.2⟩
  | generateSummary svc =>
    have hrc : (reportAndSummarySection false s (UserAction.generateSummary svc)).crashed
        = false := by
      by_contra hrc0
      have hrc1 : (reportAndSummarySection false s (UserAction.generateSummary svc)).crashed
          = true := by
        simpa using hrc0
      simp [runScript, hrc1] at hc
    have hfields := reportSection_no_cred_fields s (UserAction.generateSummary svc) hdf hrc
    simp only [runScript]
    split
    · next hcontra => simp at hcontra
    · split
      · exact ⟨hfields.1, hfields.2.1, hfields.2.2⟩
      · exact ⟨hfields.1, hfields.2.1, hfields.2.2⟩

/-- C10 witness. -/
theorem c10_no_ai_without_credential_witness :
    (runScript false (⟨some 1, some 2, some (some "A"), some [], none⟩ : SessionState)
      (UserAction.analyzeSite (GeoResponse.ok []) (QuakeResponse.ok []))).crashed = false ∧
    ((⟨some 1, some 2, some (some "A"), some [], none⟩ : SessionState).df.isSome = true) ∧
    ((∀ s2 act2, (runScript false s2 act2).genServiceCalled = false) ∧
      (runScript false (⟨some 1, some 2, some (some "A"), some [], none⟩ : SessionState)
        (UserAction.analyzeSite (GeoResponse.ok []) (QuakeResponse.ok []))).reportSectionShown
        = true ∧
      (runScript false (⟨some 1, some 2, some (some "A"), some [], none⟩ : SessionState)
        (UserAction.analyzeSite (GeoResponse.ok []) (QuakeResponse.ok []))).aiWarningShown
        = true ∧
      (runScript false (⟨some 1, some 2, some (some "A"), some [], none⟩ : SessionState)
        (UserAction.analyzeSite (GeoResponse.ok []) (QuakeResponse.ok []))).generateButtonShown
        = false) :=
  ⟨by decide, by decide,
    c10_no_ai_without_credential ⟨some 1, some 2, some (some "A"), some [], none⟩
      (UserAction.analyzeSite (GeoResponse.ok []) (QuakeResponse.ok []))
      (by decide) (by decide)⟩

end SiteAnalysis
